import Mathlib

/-!
Verification of the goncurses Window/coordinate contract.

This file gives a shallow embedding of the argument-dispatch and
error-reporting logic of the goncurses binding (ncurses.go and the
library portion of the concatenated examples/color/color.go document)
and proves or refutes the frozen specification claims against it.

Conventions of the embedding:

* Variadic Go methods become functions on `List` arguments.
* The effect of a method is represented by the curses C call it issues
  (`CCall`), carrying exactly the arguments the Go code passes across the
  cgo boundary; the receiver's C window is implicit in the call.
* Go runtime panics (index out of range, failed type assertion) become
  `Except GoPanic`; Go `error` returns become `Option String` /
  `Except String` carrying the message built by the source.
* Results of C library calls that the Go code branches on are passed in
  as explicit parameters (e.g. `cInitPairOk`); semantics that live inside
  the external C ncurses library (subwin containment, mousemask grants,
  the two-phase refresh) are modelled from the spec and marked as such.
-/

set_option autoImplicit false

namespace Goncurses

/-- A Go runtime panic that can abort a variadic drawing call: indexing past
the end of the argument slice, or a failed `interface` type assertion. -/
inductive GoPanic where
  | indexOutOfRange
  | typeAssertion
deriving DecidableEq, Repr

/-- A dynamically typed Go value (`interface\x7b\x7d`) as passed to Print:
either an int, a string, or some other type. -/
inductive GoVal where
  | int (n : Int)
  | str (s : String)
  | other
deriving DecidableEq, Repr

/-- True exactly when `reflect.TypeOf(v).String() == "int"` in the source. -/
def GoVal.isGoInt : GoVal → Bool
  | .int _ => true
  | _ => false

/-- The int payload of a `GoVal` after a successful `.(int)` assertion. -/
def GoVal.asInt : GoVal → Int
  | .int n => n
  | _ => 0

/-- The curses C call a drawing/input method issues on its receiver's
window. For the string calls the formatted text is represented by the
format string plus the remaining operands handed to `fmt.Sprintf`. -/
inductive CCall where
  | waddch (ch : Int)
  | mvwaddch (y x ch : Int)
  | waddstr (format : String) (operands : List GoVal)
  | mvwaddstr (y x : Int) (format : String) (operands : List GoVal)
  | wdelch
  | mvwdelch (y x : Int)
  | wgetch
  | mvwgetch (y x : Int)
deriving DecidableEq, Repr

/-- A goncurses `Window`: a (possibly nil) handle to a C `WINDOW`.
Handles are names into a `CursesState`. -/
structure Window where
  win : Option Nat
deriving DecidableEq, Repr

/-- `Window.AddChar(args ...int)` (color.go 671-689): with more than one
argument the first is taken as y, with more than two the second as x;
`args[count]` is the character. An empty argument list makes `args[count]`
panic with an index-out-of-range error. -/
def Window.AddChar (_w : Window) (args : List Int) : Except GoPanic CCall :=
  let count := (if args.length > 1 then 1 else 0) + (if args.length > 2 then 1 else 0)
  let y := if args.length > 1 then args.getD 0 0 else 0
  let x := if args.length > 2 then args.getD 1 0 else 0
  match args.get? count with
  | none => Except.error GoPanic.indexOutOfRange
  | some ch =>
    Except.ok (if count > 0 then CCall.mvwaddch y x ch else CCall.waddch ch)

/-- The `count` computed by `Window.Print` (color.go 980-1004): one for each
of the two leading arguments that exists (beyond the first / first two)
and is an int. -/
def printCount (args : List GoVal) : Nat :=
  (if args.length > 1 ∧ (args.getD 0 GoVal.other).isGoInt then 1 else 0) +
  (if args.length > 2 ∧ (args.getD 1 GoVal.other).isGoInt then 1 else 0)

/-- The y coordinate `Window.Print` assigns (0 unless the first guard fires). -/
def printY (args : List GoVal) : Int :=
  if args.length > 1 ∧ (args.getD 0 GoVal.other).isGoInt then
    (args.getD 0 GoVal.other).asInt
  else 0

/-- The x coordinate `Window.Print` assigns (0 unless the second guard fires). -/
def printX (args : List GoVal) : Int :=
  if args.length > 2 ∧ (args.getD 1 GoVal.other).isGoInt then
    (args.getD 1 GoVal.other).asInt
  else 0

/-- `Window.Print(args ...interface\x7b\x7d)` (color.go 980-1004): after the
two guarded coordinate reads, the code evaluates `args[count].(string)` -
panicking with index-out-of-range if `count` is past the end and with a
failed type assertion if that argument is not a string - and then issues
`mvwaddstr`/`waddstr` with the format string and the remaining operands. -/
def Window.Print (_w : Window) (args : List GoVal) : Except GoPanic CCall :=
  let count := printCount args
  match args.get? count with
  | none => Except.error GoPanic.indexOutOfRange
  | some v =>
    match v with
    | GoVal.str s =>
      Except.ok (if count > 0 then
          CCall.mvwaddstr (printY args) (printX args) s (args.drop (count + 1))
        else CCall.waddstr s (args.drop (count + 1)))
    | _ => Except.error GoPanic.typeAssertion

/-- `Window.DelChar(coord ...int)` (color.go 806-827): more than two
arguments is an error; with more than one argument y is `coord[0]` and x
is `coord[1]` only under the unreachable `len(coord) > 2` test (kept
verbatim), so x stays 0; with at most one argument the code falls through
to `wdelch`. The value is the curses call issued; the source's final step,
mapping a C failure of that call to the error "An error occurred when
trying to delete character", does not depend on `coord` and is not
modelled. -/
def Window.DelChar (_w : Window) (coord : List Int) : Except String CCall :=
  if coord.length > 2 then
    Except.error ("Invalid number of arguments, expected 2, got " ++ toString coord.length)
  else if coord.length > 1 then
    Except.ok (CCall.mvwdelch (coord.getD 0 0)
      (if coord.length > 2 then coord.getD 1 0 else 0))
  else
    Except.ok CCall.wdelch

/-- `Window.GetChar(coords ...int)` (color.go 863-877): the same guards as
AddChar (`len > 1` for y, `len > 2` for x) although GetChar has no trailing
payload argument, so a single coordinate leaves `count = 0` and the code
calls `wgetch` at the cursor. -/
def Window.GetChar (_w : Window) (coords : List Int) : CCall :=
  let count := (if coords.length > 1 then 1 else 0) + (if coords.length > 2 then 1 else 0)
  let y := if coords.length > 1 then coords.getD 0 0 else 0
  let x := if coords.length > 2 then coords.getD 1 0 else 0
  if count > 0 then CCall.mvwgetch y x else CCall.wgetch

/-- A C `WINDOW`: an origin, a size and the identifier of the cell buffer it
draws into (sub-windows share their parent's buffer). -/
structure CWin where
  buf : Nat
  begy : Int
  begx : Int
  nrows : Int
  ncols : Int
deriving DecidableEq, Repr

/-- The curses-side window table: live C windows by handle, plus the next
fresh handle. -/
structure CursesState where
  wins : List (Nat × CWin)
  nextId : Nat
deriving DecidableEq, Repr

/-- Look a C window up by handle. -/
def lookupWin (st : CursesState) (h : Nat) : Option CWin :=
  (st.wins.find? (fun p => p.fst == h)).map Prod.snd

/-- Whether a requested rectangle (absolute origin `begy, begx`, size
`nlines × ncols`) lies within the window `p`. -/
def rectContained (p : CWin) (nlines ncols begy begx : Int) : Bool :=
  decide (0 < nlines) && decide (0 < ncols) &&
  decide (p.begy ≤ begy) && decide (p.begx ≤ begx) &&
  decide (begy + nlines ≤ p.begy + p.nrows) &&
  decide (begx + ncols ≤ p.begx + p.ncols)

/-- Register a fresh child window drawing into buffer `buf`. -/
def allocChild (st : CursesState) (buf : Nat) (nlines ncols begy begx : Int) :
    CursesState :=
  { wins := (st.nextId, ⟨buf, begy, begx, nlines, ncols⟩) :: st.wins,
    nextId := st.nextId + 1 }

/-- Modelled from the spec: the C `subwin` call, which lives in the external
ncurses library. It creates a child sharing the parent's buffer at absolute
screen coordinates, and yields NULL - leaving the window table untouched -
when the requested rectangle is not contained within the parent (spec,
section 4.2). -/
def subwinC (st : CursesState) (parent : Nat) (nlines ncols begy begx : Int) :
    Option Nat × CursesState :=
  match lookupWin st parent with
  | none => (none, st)
  | some p =>
    if rectContained p nlines ncols begy begx then
      (some st.nextId, allocChild st p.buf nlines ncols begy begx)
    else (none, st)

/-- `Window.Sub(height, width, y, x)` (color.go 1032-1035): the source
returns `Window\x7bC.subwin(...)\x7d` - only a `Window`; the signature has
no error slot. On a nil receiver handle `C.subwin(NULL, ...)` yields NULL. -/
def Window.Sub (w : Window) (st : CursesState) (height width y x : Int) :
    Window × CursesState :=
  match w.win with
  | none => (⟨none⟩, st)
  | some h =>
    (⟨(subwinC st h height width y x).fst⟩, (subwinC st h height width y x).snd)

/-- `Window.Derived(height, width, y, x)` (color.go 842-845): wraps
`C.derwin`, which is `subwin` with coordinates relative to the parent's
origin; again only a `Window` is returned. -/
def Window.Derived (w : Window) (st : CursesState) (height width y x : Int) :
    Window × CursesState :=
  match w.win with
  | none => (⟨none⟩, st)
  | some h =>
    match lookupWin st h with
    | none => (⟨none⟩, st)
    | some p =>
      (⟨(subwinC st h height width (p.begy + y) (p.begx + x)).fst⟩,
        (subwinC st h height width (p.begy + y) (p.begx + x)).snd)

/-- What `Sub` reports to its caller on the `(Window, Error)` view the spec
prescribes: a Go function whose signature is `func (...) Window` delivers
its result unconditionally as a non-error value, since the signature has no
error return slot. -/
def subReported (w : Window) (st : CursesState) (height width y x : Int) :
    Except String Window :=
  Except.ok (Window.Sub w st height width y x).fst

/-- The Sub contract as the spec words it (sections 4.2 and 8): creating a
child fails with an invalid-parameter Error when the requested rectangle is
not contained within the parent, and succeeds with a buffer-sharing child
otherwise. Stated only for comparison against the source definition
`Window.Sub`. -/
def subSpecModel (w : Window) (st : CursesState) (height width y x : Int) :
    Except String (Window × CursesState) :=
  match w.win with
  | none => Except.error "Invalid parameter"
  | some h =>
    match lookupWin st h with
    | none => Except.error "Invalid parameter"
    | some p =>
      if rectContained p height width y x then
        Except.ok (⟨some st.nextId⟩, allocChild st p.buf height width y x)
      else Except.error "Invalid parameter"

/-- A concrete curses state with one 24×80 root window at the origin. -/
def demoState : CursesState :=
  { wins := [(0, { buf := 0, begy := 0, begx := 0, nrows := 24, ncols := 80 })],
    nextId := 1 }

/-- The Go handle of the root window of `demoState`. -/
def demoRoot : Window := { win := some 0 }

/-- Reduction of an Int to the value of the C `short` cast, two's complement
on 16 bits. -/
def toInt16 (n : Int) : Int := (n + 32768) % 65536 - 32768

/-- The outcome of `InitPair`: the Go error returned, and the arguments
passed on to `C.init_pair` when that call is reached. -/
structure InitPairResult where
  err : Option String
  registered : Option (Int × Int × Int)
deriving DecidableEq, Repr

/-- `InitPair(pair, fg, bg int16)` (ncurses.go 200-208): rejects
`pair == 0 || C.short(pair) > C.short(C.COLOR_PAIRS-1)` before calling
`C.init_pair`; otherwise the registration call runs and a C failure becomes
a Go error. `colorPairs` is the terminal-reported `COLOR_PAIRS` and
`cInitPairOk` the outcome of the C call; `pair`, `fg`, `bg` are int16
values, on which the `C.short` casts are the identity. -/
def InitPair (colorPairs : Int) (cInitPairOk : Bool) (pair fg bg : Int) :
    InitPairResult :=
  if pair = 0 ∨ pair > toInt16 (colorPairs - 1) then
    { err := some "Invalid color pair selected", registered := none }
  else if cInitPairOk then
    { err := none, registered := some (pair, fg, bg) }
  else
    { err := some "Failed to init color pair", registered := some (pair, fg, bg) }

/-- Modelled from the ncurses ABI: `A_COLOR`, the color-pair field of the
attribute bitmask, is the byte at bit offset `NCURSES_ATTR_SHIFT = 8`. -/
def A_COLOR : Nat := 65280

/-- Modelled from the ncurses ABI: the C macro `COLOR_PAIR(n)` places the
pair number in the `A_COLOR` field: `(n << 8) & A_COLOR` in C int
arithmetic. Attribute masks are kept as the C unsigned `chtype`. -/
def cCOLOR_PAIR (n : Nat) : Nat := ((n * 256) % 4294967296) &&& A_COLOR

/-- `ColorPair(pair int) int` (color.go 420-422): a direct wrap of the C
macro, no failure mode. Stated for the nonnegative ints the claims use,
where the C int casts are the identity. -/
def ColorPair (pair : Nat) : Nat := cCOLOR_PAIR pair

/-- The effect of C `wattron` on a window's attribute bitmask: the named
bits are turned on by bitwise union (spec, section 3: the attribute bit-set
is combinable by bitwise union). -/
def wattron (attrs a : Nat) : Nat := attrs ||| a

/-- `Window.AttrOn(attr int)` (color.go 701-707): passes `attr` straight to
`C.wattron`. The embedding takes and returns the receiver's attribute
bitmask; the error branch for a C failure does not alter the mask. -/
def Window.AttrOn (_w : Window) (attrs : Nat) (attr : Nat) : Nat :=
  wattron attrs attr

/-- `Window.ColorOn(pair byte)` (color.go 782-787): passes
`C.COLOR_PAIR(C.int(pair))` to `C.wattron`. The byte parameter is the
domain 0..255. -/
def Window.ColorOn (_w : Window) (attrs : Nat) (pair : Fin 256) : Nat :=
  wattron attrs (cCOLOR_PAIR pair.val)

/-- Contents written into a window's cell buffer: a list of
(position, character) writes. -/
structure WinContent where
  cells : List ((Int × Int) × Int)
deriving DecidableEq, Repr

/-- A screen buffer: latest write per position wins, represented as an
association list with superseded entries filtered out. -/
def ScreenBuf := List ((Int × Int) × Int)
deriving DecidableEq

/-- Write one cell into a screen buffer. -/
def putCell (s : ScreenBuf) (p : Int × Int) (ch : Int) : ScreenBuf :=
  (p, ch) :: List.filter (fun q => q.fst != p) s

/-- Copy a window's cells onto a screen buffer. -/
def overlayWin (w : WinContent) (s : ScreenBuf) : ScreenBuf :=
  w.cells.foldl (fun acc c => putCell acc c.fst c.snd) s

/-- The terminal as the two-phase redraw model sees it: the virtual screen
accumulated by noutrefresh, and the physical screen the user sees. -/
structure Terminal where
  virt : ScreenBuf
  phys : ScreenBuf

/-- Modelled from the spec (section 4.5): C `wnoutrefresh` copies the
window onto the virtual screen without touching the physical one. -/
def wnoutrefresh (w : WinContent) (t : Terminal) : Terminal :=
  { t with virt := overlayWin w t.virt }

/-- Modelled from the spec (section 4.5): C `doupdate` flushes the virtual
screen to the physical terminal in one batched write. -/
def doupdate (t : Terminal) : Terminal :=
  { t with phys := t.virt }

/-- Modelled from the spec (section 4.5): C `wrefresh` is the immediate
path, wnoutrefresh of this window followed by doupdate. -/
def wrefresh (w : WinContent) (t : Terminal) : Terminal :=
  doupdate (wnoutrefresh w t)

/-- `Window.NoutRefresh()` (color.go 942-945): calls `C.wnoutrefresh` on the
receiver, here represented by its cell content. -/
def Window.NoutRefresh (w : WinContent) (t : Terminal) : Terminal :=
  wnoutrefresh w t

/-- `Window.Refresh()` (color.go 1006-1009): calls `C.wrefresh`. -/
def Window.Refresh (w : WinContent) (t : Terminal) : Terminal :=
  wrefresh w t

/-- `Update()` (ncurses.go 342-347): calls `C.doupdate`; a C failure becomes
a Go error, which does not change what was flushed. -/
def Update (t : Terminal) : Terminal :=
  doupdate t

/-- Modelled from the spec (sections 4.6 and 8): the C `mousemask` call,
which lives in the external ncurses library, grants the requested events
the terminal supports, i.e. the intersection of the requested mask with the
supported mask. -/
def mousemaskC (supported requested : Nat) : Nat := requested &&& supported

/-- `MouseMask(mask int, old *int) (m int)` (color.go 564-570): zero unless
the build has mouse support, otherwise the grant of `C.mousemask`. The
`old` out-parameter merely stores the prior mask and is not modelled. -/
def MouseMask (hasMouse : Bool) (supported : Nat) (mask : Nat) : Nat :=
  if hasMouse then mousemaskC supported mask else 0

/-- The outcome of `Window.Delete`: the Go error, the heap of Go `Window`
structs after the call (the caller's Window value lives there), the final
value of the method-local receiver pointer `w`, and the C window released
by `delwin`. -/
structure DeleteResult where
  err : Option String
  heap : Nat → Window
  localW : Option Nat
  released : Option Nat

/-- `Window.Delete()` (color.go 830-836): calls `C.delwin(w.win)`; on a C
failure it returns an error at once. Otherwise the statement `w = nil`
rebinds the method-local pointer variable - the only assignment in the
body - and nil is returned. The body contains no write through `w`, so the
heap is passed through unchanged. `heap` maps addresses to Go Window
structs and `wptr` is the receiver address. -/
def Window.Delete (cDelOk : Bool) (heap : Nat → Window) (wptr : Nat) :
    DeleteResult :=
  if cDelOk then
    { err := none, heap := heap, localW := none, released := (heap wptr).win }
  else
    { err := some "Failed to delete window", heap := heap,
      localW := some wptr, released := none }

/-- The outcome of `HalfDelay`: the Go error and the argument passed to
`C.halfdelay` when that call is reached. -/
structure HalfDelayResult where
  err : Option String
  invoked : Option Int
deriving DecidableEq, Repr

/-- `HalfDelay(delay int)` (ncurses.go 153-162): `cerr` starts at the zero
value and is overwritten by `C.halfdelay(delay)` only when `delay > 0`, so
for a non-positive delay the `cerr == C.ERR` test compares 0 with -1 and
nil is returned without any C call. `cRes` is the result of `C.halfdelay`
when it runs. -/
def HalfDelay (cRes : Int) (delay : Int) : HalfDelayResult :=
  if delay > 0 then
    { err := if cRes = -1 then some "Unable to set delay mode" else none,
      invoked := some delay }
  else
    { err := none, invoked := none }

/-- Claim C1: the spec says every drawing operation called with exactly one
leading position argument y takes effect at (y, 0). Evaluating the dispatch
at such calls: AddChar(5, 65) and Print(5, "hello") do target (5, 0), but
DelChar(5) dispatches `wdelch` and GetChar(5) dispatches `wgetch`, both at
the current cursor position, silently ignoring the position argument - the
code contradicts the contract its own AddChar documentation states. -/
theorem singlePositionDispatchEval :
    Window.AddChar demoRoot [5, 65] = Except.ok (CCall.mvwaddch 5 0 65) ∧
    Window.Print demoRoot [GoVal.int 5, GoVal.str "hello"] =
      Except.ok (CCall.mvwaddstr 5 0 "hello" []) ∧
    Window.DelChar demoRoot [5] = Except.ok CCall.wdelch ∧
    Window.GetChar demoRoot [5] = CCall.wgetch := by
  refine ⟨rfl, rfl, rfl, rfl⟩

/-- Claim C2: the spec says DelChar(y, x) deletes at row y, column x. The
code reads x only inside a dead `len(coord) > 2` test (unreachable: three
or more arguments already returned an error), so DelChar(3, 7) issues
`mvwdelch` at (3, 0) - the x coordinate is ignored. -/
theorem delCharIgnoresX :
    Window.DelChar demoRoot [3, 7] = Except.ok (CCall.mvwdelch 3 0) := rfl

/-- Claim C3, counterexample: requesting a 100×100 sub-window of a 24×80
parent does not report any error to the caller: the call delivers the
plain value Window\x7bnil\x7d (the signature has no error slot), while the
spec's (Window, Error) contract demands an invalid-parameter error. -/
theorem subNoErrorReported :
    subReported demoRoot demoState 100 100 0 0 = Except.ok { win := none } ∧
    subSpecModel demoRoot demoState 100 100 0 0 =
      Except.error "Invalid parameter" := by
  exact ⟨rfl, rfl⟩

/-- Claim C3, amended: creating a Sub window with a rectangle not contained
within the parent's bounds yields a Window wrapping a nil handle and leaves
the window state (the parent included) unmutated; no error value is
reported - the caller must detect the failure by checking the handle. -/
theorem subOutOfBoundsNilNoMutation (st : CursesState) (w : Window)
    (h : Nat) (p : CWin) (height width y x : Int)
    (hw : w.win = some h) (hp : lookupWin st h = some p)
    (hout : rectContained p height width y x = false) :
    Window.Sub w st height width y x = ({ win := none }, st) := by
  simp [Window.Sub, hw, subwinC, hp, hout]

/-- Witness for the amended C3 theorem at the concrete 24×80 root window
and the out-of-bounds 100×100 request. -/
theorem subOutOfBoundsNilNoMutationWitness :
    Window.Sub demoRoot demoState 100 100 0 0 = ({ win := none }, demoState) :=
  subOutOfBoundsNilNoMutation demoState demoRoot 0
    { buf := 0, begy := 0, begx := 0, nrows := 24, ncols := 80 }
    100 100 0 0 rfl rfl (by decide)

/-- Claim C4: for any fg and bg, InitPair rejects pair = 0 and any
pair ≥ COLOR_PAIRS with the invalid-parameter error, returning before the
underlying `init_pair` registration call, for every int16 pair and every
terminal-reported COLOR_PAIRS in 0..32768. -/
theorem initPairRejectsInvalid (colorPairs : Int) (cOk : Bool)
    (pair fg bg : Int)
    (hpair : -32768 ≤ pair ∧ pair ≤ 32767)
    (hcp : 0 ≤ colorPairs ∧ colorPairs ≤ 32768)
    (hrej : pair = 0 ∨ colorPairs ≤ pair) :
    InitPair colorPairs cOk pair fg bg =
      { err := some "Invalid color pair selected", registered := none } := by
  unfold InitPair
  rw [if_pos]
  rcases hrej with h | h
  · exact Or.inl h
  · refine Or.inr ?_
    unfold toInt16
    omega

/-- Witness for C4: with COLOR_PAIRS = 256, both InitPair(0, 7, 3) and
InitPair(300, 7, 3) are rejected without reaching `init_pair`, even though
the C call would have succeeded. -/
theorem initPairRejectsInvalidWitness :
    InitPair 256 true 0 7 3 =
      { err := some "Invalid color pair selected", registered := none } ∧
    InitPair 256 true 300 7 3 =
      { err := some "Invalid color pair selected", registered := none } :=
  ⟨initPairRejectsInvalid 256 true 0 7 3 (by decide) (by decide) (Or.inl rfl),
   initPairRejectsInvalid 256 true 300 7 3 (by decide) (by decide)
     (Or.inr (by decide))⟩

/-- Claim C5: for every id in ColorOn's byte domain and every current
attribute bitmask, AttrOn(ColorPair(id)) performs the bit-identical change
to ColorOn(id): both turn on exactly the COLOR_PAIR(id) bits. -/
theorem attrOnColorPairEqColorOn (w : Window) (attrs : Nat) (id : Fin 256) :
    Window.AttrOn w attrs (ColorPair id.val) = Window.ColorOn w attrs id ∧
    Window.ColorOn w attrs id = attrs ||| cCOLOR_PAIR id.val :=
  ⟨rfl, rfl⟩

/-- Claim C6: NoutRefresh on A, NoutRefresh on B, then one global Update
leaves the same physical terminal output as Refresh on A then Refresh on B;
the batched two-phase path is an optimization, not a behavior change. -/
theorem batchedRefreshEquiv (A B : WinContent) (t : Terminal) :
    (Update (Window.NoutRefresh B (Window.NoutRefresh A t))).phys =
      (Window.Refresh B (Window.Refresh A t)).phys := rfl

/-- Claim C7, counterexample: the variadic drawing operations can abort
with a runtime panic instead of reporting an error: AddChar() panics with
an out-of-range index, and the ordinary positionless format call
Print("%d + %d", 1, 2) panics with a failed type assertion, because the
second guard takes the int operand at index 1 as an x coordinate and then
asserts args[1] to be a string. -/
theorem printAddCharPanic :
    Window.AddChar demoRoot [] = Except.error GoPanic.indexOutOfRange ∧
    Window.Print demoRoot [GoVal.str "%d + %d", GoVal.int 1, GoVal.int 2] =
      Except.error GoPanic.typeAssertion :=
  ⟨rfl, rfl⟩

/-- Claim C7, amended: AddChar performs its operation without panicking
exactly when called with at least one argument, and Print exactly when the
argument at the computed payload index exists and is a string; on every
other argument list they abort with a panic rather than an error. -/
theorem addCharPrintPanicIff :
    (∀ (w : Window) (args : List Int),
      (∃ c, Window.AddChar w args = Except.ok c) ↔ args ≠ []) ∧
    (∀ (w : Window) (args : List GoVal),
      (∃ c, Window.Print w args = Except.ok c) ↔
        ∃ s, args.get? (printCount args) = some (GoVal.str s)) := by
  constructor
  · intro w args
    match args with
    | [] => simp [Window.AddChar]
    | [a] => simp [Window.AddChar]
    | [a, b] => simp [Window.AddChar]
    | a :: b :: c :: t =>
      have h1 : (a :: b :: c :: t).length > 1 := by simp
      have h2 : (a :: b :: c :: t).length > 2 := by simp
      simp [Window.AddChar, h1, h2]
  · intro w args
    unfold Window.Print
    simp only [List.get?_eq_getElem?]
    cases hg : args[printCount args]? with
    | none => simp
    | some v =>
      cases v with
      | int n => simp
      | str s => simp
      | other => simp

/-- Claim C8: the granted mouse mask is always a subset of the requested
mask (granted AND requested = granted), and on a full-support terminal -
mouse support present and every requested event supported - the grant is
exactly the request. -/
theorem mouseMaskGrantedSubset (hasMouse : Bool) (supported mask : Nat) :
    MouseMask hasMouse supported mask &&& mask =
      MouseMask hasMouse supported mask ∧
    (hasMouse = true → mask &&& supported = mask →
      MouseMask hasMouse supported mask = mask) := by
  constructor
  · cases hasMouse with
    | false => simp [MouseMask]
    | true =>
      simp only [MouseMask, mousemaskC, if_pos]
      apply Nat.eq_of_testBit_eq
      intro i
      simp only [Nat.testBit_land]
      cases mask.testBit i <;> cases supported.testBit i <;> rfl
  · intro hm hfull
    subst hm
    simpa [MouseMask, mousemaskC] using hfull

/-- Witness for C8: a terminal supporting events 1, 2 and 8 grants exactly
the subset 1 and 8 of the requested 1, 8 and 16; one that supports all of
1, 2, 4 and 8 grants a request for 1 and 8 in full. -/
theorem mouseMaskGrantedSubsetWitness :
    MouseMask true 11 25 &&& 25 = MouseMask true 11 25 ∧
    MouseMask true 15 9 = 9 :=
  ⟨(mouseMaskGrantedSubset true 11 25).left,
   (mouseMaskGrantedSubset true 15 9).right rfl (by decide)⟩

/-- Claim C9: Window.Delete releases only the underlying C window; the
`w = nil` assignment lands in the method-local receiver variable, so the
heap of Go Window structs - in particular the caller's Window, which keeps
its now-dangling handle - is byte-for-byte unchanged, whether or not the C
delete succeeds. -/
theorem deleteLeavesCallerWindow (cDelOk : Bool) (heap : Nat → Window)
    (wptr : Nat) :
    (Window.Delete cDelOk heap wptr).heap = heap ∧
    ((Window.Delete cDelOk heap wptr).heap wptr).win = (heap wptr).win ∧
    (Window.Delete true heap wptr).localW = none := by
  cases cDelOk <;> exact ⟨rfl, rfl, rfl⟩

/-- Claim C10: for every delay ≤ 0, HalfDelay returns nil without invoking
the underlying C halfdelay call at all - a silent success no-op, so
HalfDelay(0) cannot disable or reset half-delay mode - regardless of what
the C call would have returned. -/
theorem halfDelayNonPositiveNoOp (cRes delay : Int) (h : delay ≤ 0) :
    HalfDelay cRes delay = { err := none, invoked := none } := by
  unfold HalfDelay
  rw [if_neg (by omega)]

/-- Witness for C10: HalfDelay(0) reports success and never reaches the C
call, even supposing the C call would have failed. -/
theorem halfDelayNonPositiveNoOpWitness :
    HalfDelay (-1) 0 = { err := none, invoked := none } :=
  halfDelayNonPositiveNoOp (-1) 0 (by decide)

end Goncurses
